import Mathlib

/-!
Shallow embedding of the puter-claude-api Cloudflare worker
(src/worker/src: transformers.ts, puter-client.ts, middleware/auth.ts,
middleware/rate-limit.ts, handlers/chat.ts, handlers/keys.ts).

Conventions of the embedding:
- JavaScript numbers that hold timestamps or counters are modelled as Nat
  (all values on the modelled paths are non-negative integers); JSON numbers
  in request bodies are modelled as Rat.
- KV values are modelled structurally: an API-key record stored as JSON is
  a constructor holding the record, and the id-index entry that stores the
  bare secret string is a constructor holding that string.  JSON.parse of a
  bare secret string throws, which the sources catch; the embedding maps
  that branch to the same fallback the catch produces.
- Date.now, nanoid and toISOString are nondeterministic inputs of the code;
  they are passed as explicit parameters.
-/

namespace PuterProxy

/-- JavaScript "a || b" for an optional / possibly empty string: undefined and
the empty string are falsy, so both select b. -/
def jsOrStr (a : Option String) (b : String) : String :=
  match a with
  | none => b
  | some s => if s = "" then b else s

/-- Whitespace class of the JS regex \s (ASCII part; the modelled inputs are
ASCII). -/
def isJsWs (c : Char) : Bool :=
  c = ' ' || c = '\t' || c = '\n' || c = '\r' || c = '\x0b' || c = '\x0c'

/-- Helper for jsSplitWs: walk the character list, closing the current token
at each maximal whitespace run, exactly as String.prototype.split with the
regex \s+ does (leading and trailing runs contribute empty tokens).  The
second argument is the current token under construction, none while inside a
whitespace run whose token has already been closed. -/
def splitWsGo : List Char → Option (List Char) → List (List Char)
  | [], none => [[]]
  | [], some cur => [cur.reverse]
  | c :: rest, none =>
    if isJsWs c then splitWsGo rest none else splitWsGo rest (some [c])
  | c :: rest, some cur =>
    if isJsWs c then cur.reverse :: splitWsGo rest none
    else splitWsGo rest (some (c :: cur))

/-- text.split of the regex \s+ from estimateTokenCount. -/
def jsSplitWs (s : String) : List String :=
  (splitWsGo s.data (some [])).map (fun l => String.mk l)

/-- Character order by code point; on the ASCII names of this system it
coincides with the UTF-8 byte order Cloudflare KV lists by. -/
def charLt (c d : Char) : Bool := c.toNat < d.toNat

/-- Lexicographic order on character lists. -/
def charListLt : List Char → List Char → Bool
  | [], [] => false
  | [], _ :: _ => true
  | _ :: _, [] => false
  | c :: cs, d :: ds => charLt c d || (c.toNat = d.toNat && charListLt cs ds)

/-- Lexicographic order on strings. -/
def strLtB (a b : String) : Bool := charListLt a.data b.data

/-- String.prototype.startsWith, over the character lists. -/
def startsWithAux : List Char → List Char → Bool
  | [], _ => true
  | _ :: _, [] => false
  | p :: ps, c :: cs => (p.toNat = c.toNat) && startsWithAux ps cs

/-- s.startsWith p. -/
def jsStartsWith (s p : String) : Bool := startsWithAux p.data s.data

/-- estimateTokenCount (transformers.ts 353-371): 0 for empty text, otherwise
ceil(wordCount * 0.75), at least 1.  0.75 * w is exact in binary floating
point, so Math.ceil(wordCount * 0.75) = (3 * wordCount + 3) / 4 in Nat. -/
def estimateTokenCount (text : String) : Nat :=
  if text = "" then 0
  else
    let wordCount := (jsSplitWs text).length
    max 1 ((3 * wordCount + 3) / 4)

/-- A canonical (Puter-format) chat message. -/
structure PMsg where
  role : String
  content : String
deriving DecidableEq, Repr

/-- The prompt produced by the request transformers: a bare string when the
flattened message list had exactly one element, the list itself otherwise. -/
inductive Prompt where
  | str (s : String)
  | msgs (ms : List PMsg)
deriving DecidableEq, Repr

/-- The expression shared by both request transformers (transformers.ts 66
and 186): messages.length === 1 ? messages[0].content : messages. -/
def promptOf (messages : List PMsg) : Prompt :=
  match messages with
  | [m] => Prompt.str m.content
  | _ => Prompt.msgs messages

/-- JSON escaping of one character, as JSON.stringify performs it. -/
def jsonEscapeChar (c : Char) : String :=
  if c = '"' then "\\\""
  else if c = '\\' then "\\\\"
  else if c = '\n' then "\\n"
  else if c = '\r' then "\\r"
  else if c = '\t' then "\\t"
  else if c = '\x08' then "\\b"
  else if c = '\x0c' then "\\f"
  else if c.toNat < 32 then
    let hex := fun (n : Nat) => String.mk [(Nat.digitChar n)]
    "\\u00" ++ hex (c.toNat / 16) ++ hex (c.toNat % 16)
  else String.mk [c]

/-- JSON string literal for s. -/
def jsonQuote (s : String) : String :=
  "\"" ++ String.join (s.data.map jsonEscapeChar) ++ "\""

/-- JSON.stringify of one role/content message object (key order as in the
object literals of transformers.ts). -/
def stringifyPMsg (m : PMsg) : String :=
  "\x7b\"role\":" ++ jsonQuote m.role ++ ",\"content\":" ++ jsonQuote m.content ++ "\x7d"

/-- JSON.stringify of a message array. -/
def stringifyPMsgs (ms : List PMsg) : String :=
  "[" ++ String.intercalate "," (ms.map stringifyPMsg) ++ "]"

/-! JSON values, used for request bodies before schema validation. -/

inductive JVal where
  | str (s : String)
  | num (q : Rat)
  | jbool (b : Bool)
  | jnull
  | arr (xs : List JVal)
  | obj (fields : List (String × JVal))

/-! Typed (schema-validated) request shapes, mirroring src/worker/src/types.ts
restricted to the fields the modelled code paths read. -/

structure OpenAIMessage where
  role : String
  content : Option String
deriving DecidableEq, Repr

structure OpenAITool where
  name : String
  description : String
  parameters : JVal

structure OpenAIRequest where
  model : String
  messages : List OpenAIMessage
  max_tokens : Option Rat
  temperature : Option Rat
  stream : Option Bool
  tools : Option (List OpenAITool)

structure ClaudeBlock where
  btype : String
  text : Option String
deriving DecidableEq, Repr

inductive ClaudeContent where
  | str (s : String)
  | blocks (bs : List ClaudeBlock)
deriving DecidableEq, Repr

structure ClaudeMessage where
  role : String
  content : ClaudeContent
deriving DecidableEq, Repr

structure ClaudeTool where
  name : String
  description : String
  input_schema : JVal

structure ClaudeRequest where
  model : String
  max_tokens : Rat
  messages : List ClaudeMessage
  system : Option String
  temperature : Option Rat
  stream : Option Bool
  tools : Option (List ClaudeTool)

structure PuterTool where
  name : String
  description : String
  parameters : JVal
  strict : Bool

structure PuterOptions where
  model : String
  stream : Bool
  max_tokens : Option Rat
  temperature : Option Rat
  tools : Option (List PuterTool)

/-- The modelMap of transformOpenAIToPuter (transformers.ts 26-50). -/
def openAIModelMap : List (String × String) :=
  [ ("gpt-4", "gpt-4o"),
    ("gpt-4-turbo", "gpt-4o"),
    ("gpt-4-turbo-preview", "gpt-4o"),
    ("gpt-3.5-turbo", "gpt-4o-mini"),
    ("gpt-3.5-turbo-16k", "gpt-4o-mini"),
    ("claude-3-5-sonnet", "claude-3-5-sonnet"),
    ("claude-3-5-sonnet-20241022", "claude-3-5-sonnet"),
    ("claude-3-5-sonnet-20240620", "claude-3-5-sonnet"),
    ("claude-3-sonnet", "claude-3-5-sonnet"),
    ("claude-3-sonnet-20240229", "claude-sonnet-4"),
    ("claude-3-opus", "claude-opus-4"),
    ("claude-3-opus-20240229", "claude-opus-4"),
    ("claude-3-haiku", "claude-sonnet-4"),
    ("claude-3-haiku-20240307", "claude-sonnet-4"),
    ("anthropic.claude-3-5-sonnet-20241022-v2:0", "claude-3-5-sonnet"),
    ("anthropic.claude-3-sonnet-20240229-v1:0", "claude-sonnet-4"),
    ("anthropic.claude-3-opus-20240229-v1:0", "claude-opus-4"),
    ("anthropic.claude-3-haiku-20240307-v1:0", "claude-sonnet-4") ]

/-- The modelMap of transformClaudeToPuter (transformers.ts 153-170). -/
def claudeModelMap : List (String × String) :=
  [ ("claude-3-5-sonnet", "claude-3-5-sonnet"),
    ("claude-3-5-sonnet-20241022", "claude-3-5-sonnet"),
    ("claude-3-5-sonnet-20240620", "claude-3-5-sonnet"),
    ("claude-3-sonnet", "claude-3-5-sonnet"),
    ("claude-3-sonnet-20240229", "claude-sonnet-4"),
    ("claude-3-opus", "claude-opus-4"),
    ("claude-3-opus-20240229", "claude-opus-4"),
    ("claude-3-haiku", "claude-sonnet-4"),
    ("claude-3-haiku-20240307", "claude-sonnet-4"),
    ("anthropic.claude-3-5-sonnet-20241022-v2:0", "claude-3-5-sonnet"),
    ("anthropic.claude-3-sonnet-20240229-v1:0", "claude-sonnet-4"),
    ("anthropic.claude-3-opus-20240229-v1:0", "claude-opus-4"),
    ("anthropic.claude-3-haiku-20240307-v1:0", "claude-sonnet-4") ]

/-- The per-message map of transformOpenAIToPuter (transformers.ts 20-23):
role is unchanged (the conditional is the identity) and null content becomes
the empty string via msg.content || the empty string. -/
def openAIMappedMessages (req : OpenAIRequest) : List PMsg :=
  req.messages.map (fun m =>
    { role := if m.role = "system" then "system" else m.role,
      content := jsOrStr m.content "" })

/-- transformOpenAIToPuter (transformers.ts 15-75). -/
def transformOpenAIToPuter (req : OpenAIRequest) : Prompt × PuterOptions :=
  let messages := openAIMappedMessages req
  let puterModel := (openAIModelMap.lookup req.model).getD req.model
  let tools := req.tools.map (List.map (fun t =>
    { name := t.name, description := t.description,
      parameters := t.parameters, strict := true : PuterTool }))
  (promptOf messages,
   { model := puterModel,
     stream := (req.stream).getD false,
     max_tokens := req.max_tokens,
     temperature := req.temperature,
     tools })

/-- Textual content of a Claude message (transformers.ts 142-144): a string
content passes through, an array is filtered to text blocks whose text
fields are joined (a missing text field joins as the empty string). -/
def claudeMsgText (c : ClaudeContent) : String :=
  match c with
  | .str s => s
  | .blocks bs =>
    String.join ((bs.filter (fun b => b.btype = "text")).map (fun b => b.text.getD ""))

/-- The flattened message list built by transformClaudeToPuter (transformers.ts
133-150): a truthy system field is pushed as a leading system message (the
empty string is falsy and skipped), then every Claude message with its
flattened text. -/
def claudeFlatMessages (req : ClaudeRequest) : List PMsg :=
  (match req.system with
   | none => []
   | some s => if s = "" then [] else [{ role := "system", content := s }]) ++
  req.messages.map (fun m => { role := m.role, content := claudeMsgText m.content })

/-- transformClaudeToPuter (transformers.ts 128-195). -/
def transformClaudeToPuter (req : ClaudeRequest) : Prompt × PuterOptions :=
  let messages := claudeFlatMessages req
  let puterModel := (claudeModelMap.lookup req.model).getD req.model
  let tools := req.tools.map (List.map (fun t =>
    { name := t.name, description := t.description,
      parameters := t.input_schema, strict := true : PuterTool }))
  (promptOf messages,
   { model := puterModel,
     stream := (req.stream).getD false,
     max_tokens := some req.max_tokens,
     temperature := req.temperature,
     tools })

/-- The payload preparePuterAPIPayload builds for the drivers API
(puter-client.ts 97-131).  iface and method are the fields named interface
and method in the source. -/
structure PuterPayload where
  iface : String
  method : String
  messages : List PMsg
  model : String
  stream : Bool
  max_tokens : Option Rat
  temperature : Option Rat
  tools : Option (List PuterTool)

/-- preparePuterAPIPayload (puter-client.ts 97-131): a string prompt becomes
a single user message; options.model || the default applies the default also
to an empty-string model (JS falsiness). -/
def preparePuterAPIPayload (prompt : Prompt) (options : PuterOptions) : PuterPayload :=
  let messages :=
    match prompt with
    | .str s => [{ role := "user", content := s : PMsg }]
    | .msgs ms => ms
  { iface := "puter-chat-completion",
    method := "ai-chat",
    messages,
    model := if options.model = "" then "claude-3-5-sonnet" else options.model,
    stream := options.stream,
    max_tokens := options.max_tokens,
    temperature := options.temperature,
    tools := options.tools }

/-- validModels of validateModel (transformers.ts 318-339). -/
def validModels : List String :=
  [ "claude-sonnet-4", "claude-opus-4", "claude-3-5-sonnet", "claude-3-7-sonnet",
    "gpt-4o-mini", "gpt-4o", "o1", "o1-mini", "o1-pro", "o3", "o3-mini", "o4-mini",
    "gpt-4.1", "gpt-4.1-mini", "gpt-4.1-nano", "gpt-4.5-preview",
    "deepseek-chat", "deepseek-reasoner", "gemini-2.0-flash", "gemini-1.5-flash" ]

/-- validateModel (transformers.ts 317-347): members of validModels pass
through, everything else falls back to claude-sonnet-4. -/
def validateModel (model : String) : String :=
  if validModels.contains model then model else "claude-sonnet-4"

/-! The upstream (Puter) response shape and the non-streaming Format-A
response transformer. -/

structure PuterRespBlock where
  btype : String
  text : String
deriving DecidableEq, Repr

structure PuterToolCall where
  id : String
  name : String
  arguments : String
deriving DecidableEq, Repr

structure PuterMessage where
  role : String
  content : List PuterRespBlock
  tool_calls : Option (List PuterToolCall)
deriving DecidableEq, Repr

structure PuterChatResponse where
  message : PuterMessage
deriving DecidableEq, Repr

structure Usage where
  prompt_tokens : Nat
  completion_tokens : Nat
  total_tokens : Nat
deriving DecidableEq, Repr

structure OAToolCall where
  id : String
  name : String
  arguments : String
deriving DecidableEq, Repr

structure OAChoiceMessage where
  role : String
  content : String
  tool_calls : Option (List OAToolCall)
deriving DecidableEq, Repr

structure OAChoice where
  index : Nat
  message : OAChoiceMessage
  finish_reason : String
deriving DecidableEq, Repr

structure OpenAIResponse where
  id : String
  object : String
  created : Nat
  model : String
  choices : List OAChoice
  usage : Usage
deriving DecidableEq, Repr

/-- transformPuterToOpenAI (transformers.ts 80-123).  now is Date.now in
milliseconds and genId the nanoid draw.  The two statements after the return
statement (lines 120-122, which would overwrite usage.total_tokens with the
sum) are unreachable, so the returned total_tokens stays the literal 0.
An empty-array tool_calls field is truthy in JS, hence isSome mirrors the
finish_reason conditional; an empty-string originalPrompt is falsy, giving
prompt_tokens 0, which coincides with estimateTokenCount of the empty
string. -/
def transformPuterToOpenAI (puterResponse : PuterChatResponse) (model : String)
    (requestId : Option String) (originalPrompt : Option Prompt)
    (now : Nat) (genId : String) : OpenAIResponse :=
  let content := String.join
    ((puterResponse.message.content.filter (fun c => c.btype = "text")).map (fun c => c.text))
  { id := requestId.getD ("chatcmpl-" ++ genId),
    object := "chat.completion",
    created := now / 1000,
    model,
    choices := [
      { index := 0,
        message :=
          { role := "assistant",
            content,
            tool_calls := puterResponse.message.tool_calls.map (List.map (fun tc =>
              { id := tc.id, name := tc.name, arguments := tc.arguments : OAToolCall })) },
        finish_reason := if puterResponse.message.tool_calls.isSome then "tool_calls" else "stop" } ],
    usage :=
      { prompt_tokens :=
          match originalPrompt with
          | none => 0
          | some (.str s) => estimateTokenCount s
          | some (.msgs ms) => estimateTokenCount (stringifyPMsgs ms),
        completion_tokens := estimateTokenCount content,
        total_tokens := 0 } }

/-! Stream transducers (transformers.ts 244-312) and the handler loops that
drive them (handlers/chat.ts).  Events are modelled structurally: one
constructor per JSON frame the source serializes. -/

/-- One chat.completion.chunk frame of the Format-A stream. -/
structure OAChunk where
  id : String
  created : Nat
  model : String
  deltaRole : Option String
  deltaContent : String
deriving DecidableEq, Repr

inductive OAStreamEvent where
  | chunk (c : OAChunk)
  | done
deriving DecidableEq, Repr

/-- One step of the closure returned by createOpenAIStreamTransformer
(transformers.ts 244-271): falsy chunk text (undefined or empty) yields no
frame and leaves isFirst untouched; otherwise the delta carries the role
only on the first emitted frame. -/
def openAIStreamStep (id : String) (created : Nat) (model : String)
    (isFirst : Bool) (chunkText : Option String) : Option OAChunk × Bool :=
  match chunkText with
  | none => (none, isFirst)
  | some t =>
    if t = "" then (none, isFirst)
    else
      (some { id, created, model,
              deltaRole := if isFirst then some "assistant" else none,
              deltaContent := t },
       false)

/-- The streaming loop of handleOpenAIChatCompletions (handlers/chat.ts):
every non-empty transformer output is enqueued, then the literal
data: [DONE] sentinel. -/
def runOpenAIStream (id : String) (created : Nat) (model : String)
    (isFirst : Bool) (frags : List (Option String)) : List OAStreamEvent :=
  match frags with
  | [] => [.done]
  | f :: rest =>
    match openAIStreamStep id created model isFirst f with
    | (none, first1) => runOpenAIStream id created model first1 rest
    | (some c, first1) => .chunk c :: runOpenAIStream id created model first1 rest

/-- One SSE event of the Format-B stream.  messageStart carries the empty
content envelope built at transformers.ts 285-297. -/
inductive ClaudeStreamEvent where
  | messageStart (id : String) (model : String)
  | contentBlockDelta (text : String)
  | messageStop
deriving DecidableEq, Repr

/-- One step of the closure returned by createClaudeStreamTransformer
(transformers.ts 276-312): falsy chunk text yields nothing; the first
non-empty chunk returns only the message_start event (its text appears in no
frame); later chunks return a content_block_delta with their text. -/
def claudeStreamStep (id : String) (model : String)
    (isFirst : Bool) (chunkText : Option String) : Option ClaudeStreamEvent × Bool :=
  match chunkText with
  | none => (none, isFirst)
  | some t =>
    if t = "" then (none, isFirst)
    else
      if isFirst then (some (.messageStart id model), false)
      else (some (.contentBlockDelta t), false)

/-- The streaming loop of handleClaudeMessages (handlers/chat.ts): every
non-empty transformer output is enqueued, then the message_stop event. -/
def runClaudeStream (id : String) (model : String)
    (isFirst : Bool) (frags : List (Option String)) : List ClaudeStreamEvent :=
  match frags with
  | [] => [.messageStop]
  | f :: rest =>
    match claudeStreamStep id model isFirst f with
    | (none, first1) => runClaudeStream id model first1 rest
    | (some e, first1) => e :: runClaudeStream id model first1 rest

/-! Credential store, authentication middleware (middleware/auth.ts) and the
key handlers (handlers/keys.ts). -/

structure RateLimitCfg where
  requestsPerMinute : Nat
  requestsPerHour : Nat
  requestsPerDay : Nat
deriving DecidableEq, Repr

/-- The APIKey record of types.ts. -/
structure APIKeyRec where
  id : String
  name : String
  key : String
  permissions : List String
  createdAt : String
  lastUsed : Option String
  rateLimit : Option RateLimitCfg
  isActive : Bool
deriving DecidableEq, Repr

/-- A value stored in the API_KEYS KV namespace: either the JSON of an APIKey
record (stored under the secret) or a bare secret string (stored under the
id-index name). -/
inductive KVal where
  | keyRecord (r : APIKeyRec)
  | keyRef (s : String)
deriving DecidableEq, Repr

abbrev Store := List (String × KVal)

def kvGet (st : Store) (name : String) : Option KVal :=
  st.lookup name

def kvPut (st : Store) (name : String) (v : KVal) : Store :=
  match st with
  | [] => [(name, v)]
  | (m, w) :: rest => if m = name then (name, v) :: rest else (m, w) :: kvPut rest name v

/-- Boolean total order on names; Cloudflare KV lists key names in
lexicographic order and all modelled names are ASCII, where the String order
agrees with UTF-8 byte order. -/
def nameLe (a b : String) : Bool :=
  !(strLtB b a)

def insertName (s : String) : List String → List String
  | [] => [s]
  | t :: ts => if nameLe s t then s :: t :: ts else t :: insertName s ts

def sortNames : List String → List String
  | [] => []
  | s :: ss => insertName s (sortNames ss)

/-- The keys of an env.API_KEYS.list call with the given limit: the first
limit names in lexicographic order. -/
def kvListNames (st : Store) (limit : Nat) : List String :=
  (sortNames (st.map Prod.fst)).take limit

/-- An APIKey record with the secret removed, as returned by listAPIKeys. -/
structure APIKeyPub where
  id : String
  name : String
  permissions : List String
  createdAt : String
  lastUsed : Option String
  rateLimit : Option RateLimitCfg
  isActive : Bool
deriving DecidableEq, Repr

def APIKeyRec.toPub (r : APIKeyRec) : APIKeyPub :=
  { id := r.id, name := r.name, permissions := r.permissions,
    createdAt := r.createdAt, lastUsed := r.lastUsed,
    rateLimit := r.rateLimit, isActive := r.isActive }

/-- listAPIKeys (auth.ts 364-389): list at most limit names, skip the
id-index names, parse each remaining value as an APIKey record and strip the
secret.  Parsing a bare secret string throws and the catch skips the
entry. -/
def listAPIKeys (st : Store) (limit : Nat) : List APIKeyPub :=
  (kvListNames st limit).filterMap (fun n =>
    if jsStartsWith n "id:" then none
    else
      match kvGet st n with
      | some (.keyRecord r) => some r.toPub
      | some (.keyRef _) => none
      | none => none)

/-- generateAPIKey (auth.ts 192-224).  genId and genKey are the two nanoid
draws; the secret is pk- followed by genKey.  The record is stored under the
secret, and the bare secret under the id-index name. -/
def generateAPIKey (st : Store) (name : String) (permissions : List String)
    (rateLimit : Option RateLimitCfg) (envLimits : RateLimitCfg)
    (genId : String) (genKey : String) (nowIso : String) : APIKeyRec × Store :=
  let key := "pk-" ++ genKey
  let apiKey : APIKeyRec :=
    { id := genId, name, key, permissions, createdAt := nowIso,
      lastUsed := none, rateLimit := some (rateLimit.getD envLimits), isActive := true }
  let st1 := kvPut st key (.keyRecord apiKey)
  let st2 := kvPut st1 ("id:" ++ genId) (.keyRef key)
  (apiKey, st2)

/-- validateAPIKey (auth.ts 229-256).  putOk tells whether the awaited KV put
that writes the lastUsed timestamp succeeds; when it throws, the catch
returns null and the store is unchanged.  A name that does not start with
pk- fails up front (the empty string is covered because startsWith is then
false); a value that is a bare secret string makes JSON.parse throw, which
the catch also maps to null. -/
def validateAPIKey (st : Store) (putOk : Bool) (key : String) (nowIso : String) :
    Option APIKeyRec × Store :=
  if !(jsStartsWith key "pk-") then (none, st)
  else
    match kvGet st key with
    | none => (none, st)
    | some (.keyRef _) => (none, st)
    | some (.keyRecord r) =>
      if !r.isActive then (none, st)
      else
        let r1 := { r with lastUsed := some nowIso }
        if putOk then (some r1, kvPut st key (.keyRecord r1))
        else (none, st)

/-- getRequiredPermission (auth.ts 348-359). -/
def getRequiredPermission (path : String) : Option String :=
  if jsStartsWith path "/v1/chat/completions" || jsStartsWith path "/chat/completions" ||
     jsStartsWith path "/v1/messages" || path = "/messages" then some "chat"
  else if jsStartsWith path "/v1/keys" || jsStartsWith path "/keys" then some "admin"
  else none

/-- The publicPaths list of authMiddleware (auth.ts 264-270). -/
def publicPaths : List String :=
  [ "/health", "/v1/health", "/health/ready", "/v1/health/ready",
    "/health/live", "/v1/health/live", "/metrics", "/v1/metrics",
    "/models", "/v1/models" ]

def isPublicPath (path : String) : Bool :=
  publicPaths.any (fun p => path = p || jsStartsWith path (p ++ "/"))

/-- Result of a middleware: continue down the chain (with the credential the
auth middleware put into the context, if any) or respond with an error
envelope. -/
inductive MWResult where
  | next (apiKey : Option APIKeyRec)
  | reject (status : Nat) (errType : String) (code : String)
deriving DecidableEq, Repr

/-- authMiddleware (auth.ts 261-343).  providedKey is the bearer token from
the Authorization header or the api_key query fallback.  The bootstrap
special case consults listAPIKeys with limit 1 and lets an unauthenticated
key-creation request through whenever that call reports zero keys (the
catch around it fails open, which the embedding cannot hit because the
modelled store does not throw). -/
def authMiddleware (st : Store) (putOk : Bool) (path : String) (method : String)
    (providedKey : Option String) (nowIso : String) : MWResult × Store :=
  if isPublicPath path then (.next none, st)
  else if (path = "/v1/keys" || path = "/keys") && method = "POST" &&
          (listAPIKeys st 1).length = 0 then
    (.next none, st)
  else
    match providedKey with
    | none => (.reject 401 "authentication_error" "missing_api_key", st)
    | some k =>
      match validateAPIKey st putOk k nowIso with
      | (none, st1) => (.reject 401 "authentication_error" "invalid_api_key", st1)
      | (some r, st1) =>
        match getRequiredPermission path with
        | some perm =>
          if r.permissions.contains perm then (.next (some r), st1)
          else (.reject 403 "permission_error" "insufficient_permissions", st1)
        | none => (.next (some r), st1)

/-- The name a stored value presents when the code uses it as a lookup key
(revokeAPIKey reads the id-index entry and looks its value up as a name).
A record value is its JSON text, which begins with a brace and therefore
matches no stored name in any store the handlers build. -/
def kvalAsName : KVal → String
  | .keyRef s => s
  | .keyRecord r => "\x7b" ++ r.id

/-- revokeAPIKey (auth.ts 394-419): resolve the secret through the id index,
load the record, set isActive to false and store it back.  Neither the
id-index entry nor the record is deleted.  A value that fails to parse as a
record makes JSON.parse throw; the catch returns false. -/
def revokeAPIKey (st : Store) (keyId : String) : Bool × Store :=
  match kvGet st ("id:" ++ keyId) with
  | none => (false, st)
  | some v =>
    let keyValue := kvalAsName v
    match kvGet st keyValue with
    | none => (false, st)
    | some (.keyRef _) => (false, st)
    | some (.keyRecord r) =>
      (true, kvPut st keyValue (.keyRecord { r with isActive := false }))

/-! Rate limiting (middleware/rate-limit.ts). -/

abbrev CounterStore := List (String × Nat)

/-- getRateLimitCount (rate-limit.ts 156-164): parseInt of the stored value,
0 when absent. -/
def getRateLimitCount (rl : CounterStore) (key : String) : Nat :=
  (rl.lookup key).getD 0

def counterPut (rl : CounterStore) (key : String) (v : Nat) : CounterStore :=
  match rl with
  | [] => [(key, v)]
  | (m, w) :: rest => if m = key then (key, v) :: rest else (m, w) :: counterPut rest key v

/-- Epoch-minute bucket: Math.floor(now / (1000 * 60)). -/
def minuteBucket (now : Nat) : Nat := now / 60000

/-- Epoch-hour bucket: Math.floor(now / (1000 * 60 * 60)). -/
def hourBucket (now : Nat) : Nat := now / 3600000

/-- UTC day of now: new Date(now).toISOString().split at T takes the UTC
calendar date, which for the arithmetic of this module is the number of
whole days since the epoch (the epoch is midnight UTC); the date string is
modelled by that day index, an injective renaming of the bucket label. -/
def dayBucket (now : Nat) : Nat := now / 86400000

def minuteKey (keyId : String) (now : Nat) : String :=
  keyId ++ ":minute:" ++ toString (minuteBucket now)

def hourKey (keyId : String) (now : Nat) : String :=
  keyId ++ ":hour:" ++ toString (hourBucket now)

def dayKey (keyId : String) (now : Nat) : String :=
  keyId ++ ":day:" ++ toString (dayBucket now)

structure Windows (α : Type) where
  minute : α
  hour : α
  day : α
deriving DecidableEq, Repr

/-- The remaining counts computed at rate-limit.ts 105-109:
Math.max(0, limit - count) per window. -/
def rlRemaining (rl : CounterStore) (keyId : String) (limits : RateLimitCfg)
    (now : Nat) : Windows Int :=
  { minute := max 0 ((limits.requestsPerMinute : Int) - getRateLimitCount rl (minuteKey keyId now)),
    hour := max 0 ((limits.requestsPerHour : Int) - getRateLimitCount rl (hourKey keyId now)),
    day := max 0 ((limits.requestsPerDay : Int) - getRateLimitCount rl (dayKey keyId now)) }

/-- new Date(today + the suffix T23:59:59.999Z).getTime() for day index d:
the last millisecond of day d. -/
def endOfDayMs (d : Nat) : Nat := d * 86400000 + 86399999

/-- The reset instants computed at rate-limit.ts 112-116. -/
def rlReset (now : Nat) : Windows Nat :=
  { minute := (minuteBucket now + 1) * 60000,
    hour := (hourBucket now + 1) * 3600000,
    day := endOfDayMs (dayBucket now) }

/-- Decision record of checkRateLimit.  The window field abbreviates the
message string of the source (Minute/Hour/Daily limit of N requests
exceeded) by its window name. -/
structure RateCheck where
  allowed : Bool
  window : Option String
  remaining : Windows Int
  reset : Windows Nat
deriving DecidableEq, Repr

/-- checkRateLimit (rate-limit.ts 70-151): read the three current bucket
counts, precompute remaining and reset, then refuse on the first window
(minute, hour, day in that order) whose count has reached its limit. -/
def checkRateLimit (rl : CounterStore) (keyId : String) (limits : RateLimitCfg)
    (now : Nat) : RateCheck :=
  let minuteCount := getRateLimitCount rl (minuteKey keyId now)
  let hourCount := getRateLimitCount rl (hourKey keyId now)
  let dayCount := getRateLimitCount rl (dayKey keyId now)
  let remaining := rlRemaining rl keyId limits now
  let reset := rlReset now
  if minuteCount ≥ limits.requestsPerMinute then
    { allowed := false, window := some "minute", remaining, reset }
  else if hourCount ≥ limits.requestsPerHour then
    { allowed := false, window := some "hour", remaining, reset }
  else if dayCount ≥ limits.requestsPerDay then
    { allowed := false, window := some "day", remaining, reset }
  else
    { allowed := true, window := none, remaining, reset }

/-- incrementCounter (rate-limit.ts 189-200): read, add one (1 when absent),
write back.  The expiration TTL only discards buckets after their window has
passed and is not part of the state model. -/
def incrementCounter (rl : CounterStore) (key : String) : CounterStore :=
  counterPut rl key ((rl.lookup key).getD 0 + 1)

/-- incrementRateLimit (rate-limit.ts 169-184): bump all three buckets. -/
def incrementRateLimit (rl : CounterStore) (keyId : String) (now : Nat) : CounterStore :=
  incrementCounter (incrementCounter (incrementCounter rl (minuteKey keyId now))
    (hourKey keyId now)) (dayKey keyId now)

/-- rateLimitMiddleware (rate-limit.ts 7-65): skipped when no credential is
in the context; otherwise check, respond 429 without incrementing when a
window is exhausted, and increment all three counters before calling the
next handler when allowed. -/
def rateLimitMiddleware (rl : CounterStore) (apiKey : Option APIKeyRec)
    (envLimits : RateLimitCfg) (now : Nat) : MWResult × CounterStore :=
  match apiKey with
  | none => (.next none, rl)
  | some k =>
    let limits := k.rateLimit.getD envLimits
    let chk := checkRateLimit rl k.id limits now
    if chk.allowed then (.next (some k), incrementRateLimit rl k.id now)
    else (.reject 429 "rate_limit_error" "rate_limit_exceeded", rl)

/-! Schema validation of Format-A request bodies (openAIRequestSchema in
handlers/chat.ts 248-296), modelled over JSON values.  zod objects strip
unknown keys and reject wrong-typed known keys; required keys must be
present. -/

def getField (fs : List (String × JVal)) (k : String) : Option JVal :=
  fs.lookup k

def asStr : JVal → Option String
  | .str s => some s
  | _ => none

def asArr : JVal → Option (List JVal)
  | .arr xs => some xs
  | _ => none

def asObj : JVal → Option (List (String × JVal))
  | .obj fs => some fs
  | _ => none

/-- A present optional key must satisfy chk; an absent key passes. -/
def optFieldOk (fs : List (String × JVal)) (k : String) (chk : JVal → Bool) : Bool :=
  match getField fs k with
  | none => true
  | some v => chk v

def isStrVal : JVal → Bool
  | .str _ => true
  | _ => false

def isBoolVal : JVal → Bool
  | .jbool _ => true
  | _ => false

/-- z.number() with inclusive bounds. -/
def isNumBetween (lo hi : Rat) : JVal → Bool
  | .num q => decide (lo ≤ q) && decide (q ≤ hi)
  | _ => false

/-- The function_call object schema of a message. -/
def isFunctionCallObj (j : JVal) : Bool :=
  match asObj j with
  | none => false
  | some fs =>
    (match getField fs "name", getField fs "arguments" with
     | some (.str _), some (.str _) => true
     | _, _ => false)

/-- The tool_calls entry schema of a message. -/
def isToolCallObj (j : JVal) : Bool :=
  match asObj j with
  | none => false
  | some fs =>
    (match getField fs "id", getField fs "type", getField fs "function" with
     | some (.str _), some (.str t), some f => t = "function" && isFunctionCallObj f
     | _, _, _ => false)

def openAIRoleEnum : List String :=
  ["system", "user", "assistant", "function", "tool"]

/-- The message schema: role from the enum, content a nullable string,
optional name / function_call / tool_calls / tool_call_id type-checked when
present. -/
def parseOpenAIMessage (j : JVal) : Option OpenAIMessage := do
  let fs ← asObj j
  let roleV ← getField fs "role"
  let role ← asStr roleV
  guard (role ∈ openAIRoleEnum)
  let contentV ← getField fs "content"
  let content ← (match contentV with
    | .str s => some (some s)
    | .jnull => some none
    | _ => none)
  guard (optFieldOk fs "name" isStrVal)
  guard (optFieldOk fs "tool_call_id" isStrVal)
  guard (optFieldOk fs "function_call" isFunctionCallObj)
  guard (optFieldOk fs "tool_calls" (fun v =>
    match asArr v with
    | some xs => xs.all isToolCallObj
    | none => false))
  pure { role, content }

/-- The tools entry schema of the request. -/
def parseOpenAITool (j : JVal) : Option OpenAITool := do
  let fs ← asObj j
  let tV ← getField fs "type"
  let t ← asStr tV
  guard (t = "function")
  let fV ← getField fs "function"
  let ffs ← asObj fV
  let nameV ← getField ffs "name"
  let name ← asStr nameV
  let descV ← getField ffs "description"
  let description ← asStr descV
  let params ← getField ffs "parameters"
  let _ ← asObj params
  pure { name, description, parameters := params }

/-- An optional numeric field constrained to an inclusive range; returns the
parsed value (none when the key is absent) or fails. -/
def parseOptNumBetween (fs : List (String × JVal)) (k : String) (lo hi : Rat) :
    Option (Option Rat) :=
  match getField fs k with
  | none => some none
  | some (.num q) => if lo ≤ q ∧ q ≤ hi then some (some q) else none
  | some _ => none

/-- An optional unconstrained numeric field. -/
def parseOptNum (fs : List (String × JVal)) (k : String) : Option (Option Rat) :=
  match getField fs k with
  | none => some none
  | some (.num q) => some (some q)
  | some _ => none

/-- The stop field: string or array of strings. -/
def isStopVal : JVal → Bool
  | .str _ => true
  | .arr xs => xs.all isStrVal
  | _ => false

/-- The tool_choice field: the literals none or auto, or a function
selector object. -/
def isToolChoiceVal : JVal → Bool
  | .str s => s = "none" || s = "auto"
  | .obj fs =>
    (match getField fs "type", getField fs "function" with
     | some (.str t), some f =>
       t = "function" &&
       (match asObj f with
        | some ffs => (match getField ffs "name" with
          | some (.str _) => true
          | _ => false)
        | none => false)
     | _, _ => false)
  | _ => false

/-- The optional stream field: boolean when present. -/
def parseStreamField (fs : List (String × JVal)) : Option (Option Bool) :=
  match getField fs "stream" with
  | none => some none
  | some (.jbool b) => some (some b)
  | some _ => none

/-- The optional tools field: an array of tool objects when present. -/
def parseToolsField (fs : List (String × JVal)) : Option (Option (List OpenAITool)) :=
  match getField fs "tools" with
  | none => some none
  | some v =>
    match asArr v with
    | none => none
    | some xs => (xs.mapM parseOpenAITool).map (fun ts => some ts)

/-- The logit_bias field: an object all of whose values are numbers. -/
def isLogitBiasVal (v : JVal) : Bool :=
  match asObj v with
  | some bfs => bfs.all (fun f => match f.2 with | .num _ => true | _ => false)
  | none => false

/-- The schema constraints on the fields that the handler validates but the
modelled pipeline does not consume further: top_p, n, stop,
presence_penalty, frequency_penalty, logit_bias, user and tool_choice. -/
def openAIAuxFieldsOk (fs : List (String × JVal)) : Bool :=
  (parseOptNumBetween fs "top_p" 0 1).isSome &&
  (parseOptNumBetween fs "n" 1 1).isSome &&
  optFieldOk fs "stop" isStopVal &&
  (parseOptNumBetween fs "presence_penalty" (-2) 2).isSome &&
  (parseOptNumBetween fs "frequency_penalty" (-2) 2).isSome &&
  optFieldOk fs "logit_bias" isLogitBiasVal &&
  optFieldOk fs "user" isStrVal &&
  optFieldOk fs "tool_choice" isToolChoiceVal

/-- openAIRequestSchema.safeParse (handlers/chat.ts 248-296 and 341): returns
the typed request on success, none on any validation failure. -/
def parseOpenAIBody (j : JVal) : Option OpenAIRequest :=
  (asObj j).bind fun fs =>
  ((getField fs "model").bind asStr).bind fun model =>
  ((getField fs "messages").bind asArr).bind fun msgsJ =>
  (msgsJ.mapM parseOpenAIMessage).bind fun messages =>
  (parseOptNum fs "max_tokens").bind fun max_tokens =>
  (parseOptNumBetween fs "temperature" 0 2).bind fun temperature =>
  (parseStreamField fs).bind fun stream =>
  (parseToolsField fs).bind fun tools =>
  if openAIAuxFieldsOk fs then
    some { model, messages, max_tokens, temperature, stream, tools }
  else none

/-! The /v1/chat/completions pipeline: auth middleware, rate-limit
middleware, then handleOpenAIChatCompletions up to the upstream call
(index.ts 82-86, handlers/chat.ts 336-364). -/

/-- Environment state carried across a request: the API_KEYS and RATE_LIMITS
KV namespaces. -/
structure GatewayEnv where
  apiKeys : Store
  rateLimits : CounterStore
deriving DecidableEq, Repr

/-- Outcome of a chat request, up to the upstream call: an error envelope,
or the prepared upstream payload together with the validated model the
handler will stamp on the response. -/
inductive ChatOutcome where
  | errorResp (status : Nat) (errType : String) (code : String)
  | success (payload : PuterPayload) (responseModel : String)

def ChatOutcome.isSuccess : ChatOutcome → Bool
  | .success _ _ => true
  | .errorResp _ _ _ => false

def ChatOutcome.statusCode : ChatOutcome → Nat
  | .success _ _ => 200
  | .errorResp s _ _ => s

def ChatOutcome.errType : ChatOutcome → String
  | .success _ _ => ""
  | .errorResp _ t _ => t

/-- The model field of the prepared upstream payload (empty for errors). -/
def ChatOutcome.upstreamModel : ChatOutcome → String
  | .success p _ => p.model
  | .errorResp _ _ _ => ""

/-- The message list of the prepared upstream payload (empty for errors). -/
def ChatOutcome.upstreamMessages : ChatOutcome → List PMsg
  | .success p _ => p.messages
  | .errorResp _ _ _ => []

/-- The model the handler will report in the client-facing response. -/
def ChatOutcome.responseModel : ChatOutcome → String
  | .success _ m => m
  | .errorResp _ _ _ => ""

/-- One POST /v1/chat/completions request through the worker: the auth
middleware, then the rate-limit middleware (which increments the quota
counters before the handler runs), then the handler, which parses the body
against the schema, rejects with invalid_request_error on failure, and
otherwise validates the model and prepares the upstream payload. -/
def processChatCompletions (env : GatewayEnv) (envLimits : RateLimitCfg) (putOk : Bool)
    (providedKey : Option String) (body : JVal) (now : Nat) (nowIso : String) :
    ChatOutcome × GatewayEnv :=
  match authMiddleware env.apiKeys putOk "/v1/chat/completions" "POST" providedKey nowIso with
  | (.reject s t c, st1) => (.errorResp s t c, { env with apiKeys := st1 })
  | (.next k, st1) =>
    match rateLimitMiddleware env.rateLimits k envLimits now with
    | (.reject s t c, rl1) => (.errorResp s t c, { apiKeys := st1, rateLimits := rl1 })
    | (.next _, rl1) =>
      match parseOpenAIBody body with
      | none =>
        (.errorResp 400 "invalid_request_error" "invalid_request",
         { apiKeys := st1, rateLimits := rl1 })
      | some req =>
        (.success
          (preparePuterAPIPayload (transformOpenAIToPuter req).1 (transformOpenAIToPuter req).2)
          (validateModel req.model),
         { apiKeys := st1, rateLimits := rl1 })

/-- handleRevokeAPIKey (keys.ts 145-161), after its admin guard: a false
result from revokeAPIKey becomes a 404 key_not_found envelope, a true result
a 200 success body. -/
def handleRevokeStatus (st : Store) (keyId : String) : Nat × Store :=
  match revokeAPIKey st keyId with
  | (true, st1) => (200, st1)
  | (false, st1) => (404, st1)

def ChatOutcome.errCode : ChatOutcome → String
  | .success _ _ => ""
  | .errorResp _ _ c => c

/-- The canonical upstream message list a Format-A request is translated to:
through transformOpenAIToPuter and preparePuterAPIPayload. -/
def canonicalOpenAIMessages (req : OpenAIRequest) : List PMsg :=
  (preparePuterAPIPayload (transformOpenAIToPuter req).1 (transformOpenAIToPuter req).2).messages

/-- The canonical upstream message list a Format-B request is translated to:
through transformClaudeToPuter and preparePuterAPIPayload. -/
def canonicalClaudeMessages (req : ClaudeRequest) : List PMsg :=
  (preparePuterAPIPayload (transformClaudeToPuter req).1 (transformClaudeToPuter req).2).messages

def ClaudeStreamEvent.isContentDelta : ClaudeStreamEvent → Bool
  | .contentBlockDelta _ => true
  | _ => false

/-! Concrete fixtures used by the scenario theorems.  The nanoid draws are
fixed strings of the shape the source generates (an id, and a 32-character
secret suffix). -/

/-- A process-wide default limit configuration (the MAX_REQUESTS_PER_*
environment values). -/
def defaultLimits : RateLimitCfg := ⟨60, 1000, 10000⟩

/-- The first credential, created in an empty store. -/
def bootGen : APIKeyRec × Store :=
  generateAPIKey [] "bootstrap" ["chat", "admin"] none defaultLimits
    "a1" "aaaaaaaaaaaaaaaaaaaaaaaaaaaaaaaa" "2025-01-01T00:00:00.000Z"

def bootKey : APIKeyRec := bootGen.1

/-- The store holding exactly one credential (its record under the secret,
the secret under the id-index name). -/
def storeOne : Store := bootGen.2

/-- A second credential created on top of storeOne. -/
def storeTwo : Store :=
  (generateAPIKey storeOne "second" ["chat"] none defaultLimits
    "a2" "cccccccccccccccccccccccccccccccc" "2025-01-02T00:00:00.000Z").2

/-- storeOne after revoking credential a1. -/
def storeRevoked : Store := (revokeAPIKey storeOne "a1").2

/-- A chat-scoped credential whose per-minute limit is 2. -/
def chatKeyRec : APIKeyRec :=
  { id := "k1", name := "limited", key := "pk-bbbbbbbbbbbbbbbbbbbbbbbbbbbbbbbb",
    permissions := ["chat"], createdAt := "2025-01-01T00:00:00.000Z",
    lastUsed := none, rateLimit := some ⟨2, 100, 1000⟩, isActive := true }

def chatStore : Store :=
  kvPut (kvPut [] chatKeyRec.key (.keyRecord chatKeyRec)) "id:k1" (.keyRef chatKeyRec.key)

/-- Gateway state holding the chat credential and empty quota counters. -/
def chatEnv0 : GatewayEnv := ⟨chatStore, []⟩

/-- A well-formed Format-A chat body. -/
def chatBody : JVal :=
  .obj [("model", .str "gpt-4o"),
        ("messages", .arr [.obj [("role", .str "user"), ("content", .str "Hello")]])]

/-- A body failing schema validation: model is a number, not a string. -/
def badBody : JVal := .obj [("model", .num 42)]

/-- A well-formed body whose model identifier is in no alias table and not in
validModels. -/
def unknownModelBody : JVal :=
  .obj [("model", .str "totally-unknown-model"),
        ("messages", .arr [.obj [("role", .str "user"), ("content", .str "Hello")]])]

/-- Three chat requests with the limit-2 credential, all inside epoch-minute
bucket 1 (timestamps 60000, 61000 and 119999 ms). -/
def c3r1 : ChatOutcome × GatewayEnv :=
  processChatCompletions chatEnv0 defaultLimits true (some chatKeyRec.key) chatBody 60000 "t1"

def c3r2 : ChatOutcome × GatewayEnv :=
  processChatCompletions c3r1.2 defaultLimits true (some chatKeyRec.key) chatBody 61000 "t2"

def c3r3 : ChatOutcome × GatewayEnv :=
  processChatCompletions c3r2.2 defaultLimits true (some chatKeyRec.key) chatBody 119999 "t3"

/-- The malformed-body request through the pipeline. -/
def c5run : ChatOutcome × GatewayEnv :=
  processChatCompletions chatEnv0 defaultLimits true (some chatKeyRec.key) badBody 0 "t0"

/-- The gateway state after the auth and rate-limit middlewares of a request
by the chat credential at time 0 (independent of the body, which only the
handler reads). -/
def envAfterMW : GatewayEnv :=
  (processChatCompletions chatEnv0 defaultLimits true (some chatKeyRec.key) JVal.jnull 0 "t0").2

/-- The unknown-model request through the pipeline. -/
def c8run : ChatOutcome × GatewayEnv :=
  processChatCompletions chatEnv0 defaultLimits true (some chatKeyRec.key) unknownModelBody 0 "t0"

/-- A Format-A request whose only message has the system role. -/
def reqSingletonSystem : OpenAIRequest :=
  { model := "gpt-4o", messages := [{ role := "system", content := some "You are helpful" }],
    max_tokens := none, temperature := none, stream := none, tools := none }

/-- A two-message Format-A request. -/
def reqTwoMessages : OpenAIRequest :=
  { model := "gpt-4", messages := [{ role := "system", content := some "sys" },
      { role := "user", content := some "hi" }],
    max_tokens := none, temperature := none, stream := none, tools := none }

/-- A Format-B request whose flattened list has two messages. -/
def reqClaudeTwo : ClaudeRequest :=
  { model := "claude-3-opus", max_tokens := 16,
    messages := [{ role := "user", content := .str "hi" }],
    system := some "sys", temperature := none, stream := none, tools := none }

/-- A typed request with an unknown model identifier. -/
def reqUnknown : OpenAIRequest :=
  { model := "totally-unknown-model", messages := [{ role := "user", content := some "Hello" }],
    max_tokens := none, temperature := none, stream := none, tools := none }

/-- The upstream response used as a concrete value in usage theorems. -/
def demoPuterResp : PuterChatResponse :=
  ⟨⟨"assistant", [⟨"text", "Hello there friend"⟩], none⟩⟩

/-! Helper lemmas shared by the claim theorems. -/

/-- A message list that does not have exactly one element is kept as a list
by the prompt expression. -/
theorem promptOf_of_length_ne_one (ms : List PMsg) (h : ms.length ≠ 1) :
    promptOf ms = Prompt.msgs ms := by
  cases ms with
  | nil => rfl
  | cons a tl =>
    cases tl with
    | nil => exact absurd rfl h
    | cons b tl2 => rfl

/-- The role conditional of transformOpenAIToPuter is the identity. -/
theorem ifSystemRole_id (r : String) : (if r = "system" then "system" else r) = r := by
  by_cases h : r = "system"
  · simp [h]
  · simp [h]

/-- The null-to-empty content normalization agrees with getD of the empty
string. -/
theorem jsOrStr_empty_getD (c : Option String) : jsOrStr c "" = c.getD "" := by
  cases c with
  | none => rfl
  | some s =>
    by_cases h : s = ""
    · simp [jsOrStr, h]
    · simp [jsOrStr, h]

/-- The remaining and reset fields of the rate-limit decision do not depend
on which branch of checkRateLimit produced it. -/
theorem checkRateLimit_remaining_reset (rl : CounterStore) (keyId : String)
    (limits : RateLimitCfg) (now : Nat) :
    (checkRateLimit rl keyId limits now).remaining = rlRemaining rl keyId limits now ∧
    (checkRateLimit rl keyId limits now).reset = rlReset now := by
  unfold checkRateLimit
  by_cases hm : getRateLimitCount rl (minuteKey keyId now) ≥ limits.requestsPerMinute <;>
    by_cases hh : getRateLimitCount rl (hourKey keyId now) ≥ limits.requestsPerHour <;>
      by_cases hd : getRateLimitCount rl (dayKey keyId now) ≥ limits.requestsPerDay <;>
        simp [hm, hh, hd]

/-! Claim theorems. -/

/-- C1: for the fragment sequence Hi, space-there, bang, the Format-A
transducer driven by the handler loop emits exactly 3 chunk events, the
first carrying role and content in its delta, the remaining two carrying
only content, followed by the terminating DONE sentinel.  The Format-B
transducer, however, emits message_start (consuming the first fragment and
dropping its text), then only TWO content_block_delta events for the
remaining fragments, then message_stop: no event of the run carries the
first fragment text Hi, contradicting the claim that all three fragments
yield deltas. -/
theorem stream_transducer_fragment_run :
    runOpenAIStream "cid" 0 "m" true [some "Hi", some " there", some "!"] =
      [.chunk ⟨"cid", 0, "m", some "assistant", "Hi"⟩,
       .chunk ⟨"cid", 0, "m", none, " there"⟩,
       .chunk ⟨"cid", 0, "m", none, "!"⟩,
       .done] ∧
    runClaudeStream "mid" "m" true [some "Hi", some " there", some "!"] =
      [.messageStart "mid" "m",
       .contentBlockDelta " there",
       .contentBlockDelta "!",
       .messageStop] ∧
    ((runClaudeStream "mid" "m" true [some "Hi", some " there", some "!"]).filter
      ClaudeStreamEvent.isContentDelta).length = 2 ∧
    (runClaudeStream "mid" "m" true [some "Hi", some " there", some "!"]).contains
      (.contentBlockDelta "Hi") = false := by
  decide

/-- C2: the bootstrap window does not close after the first credential is
created.  storeOne holds one credential (listAPIKeys with a large limit
returns it), yet the limit-1 listing the auth middleware consults sees only
the id-index entry, which it filters out, reports zero keys, and lets an
unauthenticated POST /v1/keys proceed; the same still holds after a second
credential has been created, so unauthenticated creations are accepted
without bound. -/
theorem bootstrap_window_stays_open :
    (listAPIKeys storeOne 50).length = 1 ∧
    (listAPIKeys storeOne 1).length = 0 ∧
    authMiddleware storeOne true "/v1/keys" "POST" none "2025-01-02T00:00:00.000Z"
      = (.next none, storeOne) ∧
    (listAPIKeys storeTwo 50).length = 2 ∧
    authMiddleware storeTwo true "/v1/keys" "POST" none "2025-01-03T00:00:00.000Z"
      = (.next none, storeTwo) := by
  decide

/-- C3: with a per-minute limit of 2 and counters starting at 0, two
authenticated chat requests inside minute bucket 1 are allowed and leave the
minute counter at 2; the third request in the same bucket is rejected with a
429 rate_limit_error and the minute counter stays 2 (the rejected request
does not touch the counter store). -/
theorem minute_limit_two_scenario :
    c3r1.1.isSuccess = true ∧
    getRateLimitCount c3r1.2.rateLimits (minuteKey "k1" 60000) = 1 ∧
    c3r2.1.isSuccess = true ∧
    getRateLimitCount c3r2.2.rateLimits (minuteKey "k1" 60000) = 2 ∧
    c3r3.1.statusCode = 429 ∧
    c3r3.1.errType = "rate_limit_error" ∧
    getRateLimitCount c3r3.2.rateLimits (minuteKey "k1" 119999) = 2 ∧
    c3r3.2.rateLimits = c3r2.2.rateLimits := by
  decide

/-- C4 counterexample: a valid Format-A request consisting of one
system-role message is translated into a canonical list whose only message
has the user role, so the role is not preserved position by position. -/
theorem singleton_system_role_collapsed :
    (canonicalOpenAIMessages reqSingletonSystem).map PMsg.role ≠
      reqSingletonSystem.messages.map OpenAIMessage.role ∧
    (canonicalOpenAIMessages reqSingletonSystem).map PMsg.role = ["user"] ∧
    reqSingletonSystem.messages.map OpenAIMessage.role = ["system"] ∧
    (canonicalOpenAIMessages reqSingletonSystem).map PMsg.content = ["You are helpful"] := by
  decide

/-- C4 amended: whenever the flattened public message list does not have
exactly one element, translation to the canonical upstream list preserves
the message count and, position by position, each role and each textual
content (null Format-A content normalizing to the empty string, Format-B
content flattening to its joined text blocks).  A one-element list is
collapsed to a bare content string and rebuilt as a single user message, so
there count and text survive but a non-user role does not. -/
theorem multi_message_translation_preserved :
    (∀ reqA : OpenAIRequest, reqA.messages.length ≠ 1 →
      (canonicalOpenAIMessages reqA).length = reqA.messages.length ∧
      (canonicalOpenAIMessages reqA).map PMsg.role = reqA.messages.map OpenAIMessage.role ∧
      (canonicalOpenAIMessages reqA).map PMsg.content
        = reqA.messages.map (fun m => m.content.getD "")) ∧
    (∀ reqB : ClaudeRequest, (claudeFlatMessages reqB).length ≠ 1 →
      canonicalClaudeMessages reqB = claudeFlatMessages reqB) := by
  constructor
  · intro reqA h
    have hlen : (openAIMappedMessages reqA).length = reqA.messages.length := by
      simp [openAIMappedMessages]
    have hp : promptOf (openAIMappedMessages reqA) = Prompt.msgs (openAIMappedMessages reqA) :=
      promptOf_of_length_ne_one _ (by rw [hlen]; exact h)
    have hc : canonicalOpenAIMessages reqA = openAIMappedMessages reqA := by
      unfold canonicalOpenAIMessages
      have h1 : (transformOpenAIToPuter reqA).1 = promptOf (openAIMappedMessages reqA) := rfl
      rw [h1, hp]
      rfl
    refine ⟨by rw [hc]; exact hlen, ?_, ?_⟩
    · rw [hc]
      unfold openAIMappedMessages
      rw [List.map_map]
      exact List.map_congr_left (fun m _ => ifSystemRole_id m.role)
    · rw [hc]
      unfold openAIMappedMessages
      rw [List.map_map]
      exact List.map_congr_left (fun m _ => jsOrStr_empty_getD m.content)
  · intro reqB h
    have hp : promptOf (claudeFlatMessages reqB) = Prompt.msgs (claudeFlatMessages reqB) :=
      promptOf_of_length_ne_one _ h
    unfold canonicalClaudeMessages
    have h1 : (transformClaudeToPuter reqB).1 = promptOf (claudeFlatMessages reqB) := rfl
    rw [h1, hp]
    rfl

/-- Witness for C4 amended at two concrete two-message requests. -/
theorem multi_message_translation_preserved_witness :
    ((canonicalOpenAIMessages reqTwoMessages).length = reqTwoMessages.messages.length ∧
     (canonicalOpenAIMessages reqTwoMessages).map PMsg.role
        = reqTwoMessages.messages.map OpenAIMessage.role ∧
     (canonicalOpenAIMessages reqTwoMessages).map PMsg.content
        = reqTwoMessages.messages.map (fun m => m.content.getD "")) ∧
    canonicalClaudeMessages reqClaudeTwo = claudeFlatMessages reqClaudeTwo :=
  ⟨multi_message_translation_preserved.1 reqTwoMessages (by decide),
   multi_message_translation_preserved.2 reqClaudeTwo (by decide)⟩

/-- C5 counterexample: a request that fails schema validation, sent by an
authenticated, non-rate-limited credential, is answered with a 400
invalid_request_error, yet all three of its quota window counters have been
incremented from 0 to 1 by the rate-limit middleware that ran before the
handler validated the body. -/
theorem malformed_request_still_counted :
    c5run.1.statusCode = 400 ∧
    c5run.1.errType = "invalid_request_error" ∧
    getRateLimitCount chatEnv0.rateLimits (minuteKey "k1" 0) = 0 ∧
    getRateLimitCount c5run.2.rateLimits (minuteKey "k1" 0) = 1 ∧
    getRateLimitCount c5run.2.rateLimits (hourKey "k1" 0) = 1 ∧
    getRateLimitCount c5run.2.rateLimits (dayKey "k1" 0) = 1 := by
  decide

/-- C5 amended: schema validation happens in the handler, after the auth and
rate-limit middlewares; hence every request whose body fails validation but
whose credential passes authentication and rate limiting yields an
invalid_request_error AND leaves all three quota counters incremented by
one.  Validation failure itself performs no further state change: the
resulting state is exactly the post-middleware state. -/
theorem validation_runs_after_quota_increment (body : JVal)
    (h : parseOpenAIBody body = none) :
    processChatCompletions chatEnv0 defaultLimits true (some chatKeyRec.key) body 0 "t0"
      = (.errorResp 400 "invalid_request_error" "invalid_request", envAfterMW) ∧
    getRateLimitCount envAfterMW.rateLimits (minuteKey "k1" 0) = 1 ∧
    getRateLimitCount envAfterMW.rateLimits (hourKey "k1" 0) = 1 ∧
    getRateLimitCount envAfterMW.rateLimits (dayKey "k1" 0) = 1 := by
  refine ⟨?_, by decide, by decide, by decide⟩
  have e : processChatCompletions chatEnv0 defaultLimits true (some chatKeyRec.key) body 0 "t0"
      = (match parseOpenAIBody body with
         | none => (.errorResp 400 "invalid_request_error" "invalid_request", envAfterMW)
         | some req =>
           (.success
             (preparePuterAPIPayload (transformOpenAIToPuter req).1 (transformOpenAIToPuter req).2)
             (validateModel req.model), envAfterMW)) := rfl
  rw [e, h]

/-- Witness for C5 amended at the concrete malformed body. -/
theorem validation_runs_after_quota_increment_witness :
    processChatCompletions chatEnv0 defaultLimits true (some chatKeyRec.key) badBody 0 "t0"
      = (.errorResp 400 "invalid_request_error" "invalid_request", envAfterMW) ∧
    getRateLimitCount envAfterMW.rateLimits (minuteKey "k1" 0) = 1 ∧
    getRateLimitCount envAfterMW.rateLimits (hourKey "k1" 0) = 1 ∧
    getRateLimitCount envAfterMW.rateLimits (dayKey "k1" 0) = 1 :=
  validation_runs_after_quota_increment badBody rfl

/-- C6 counterexample: the second revocation of the same credential id does
not return 404: the id-index entry and the record are never deleted, so
revokeAPIKey succeeds again and the handler answers 200. -/
theorem second_revocation_not_404 :
    (handleRevokeStatus storeOne "a1").1 = 200 ∧
    (handleRevokeStatus (handleRevokeStatus storeOne "a1").2 "a1").1 = 200 ∧
    (handleRevokeStatus (handleRevokeStatus storeOne "a1").2 "a1").1 ≠ 404 := by
  decide

/-- C6 amended: after revocation the record is inactive and every
authentication with the revoked secret fails with a 401 invalid_api_key
authentication error; revoking the same id again succeeds again (200,
leaving the store unchanged), so revocation is idempotent in effect but does
not 404 on repetition; 404 arises for an id with no index entry. -/
theorem revocation_semantics :
    revokeAPIKey storeOne "a1" = (true, storeRevoked) ∧
    kvGet storeRevoked bootKey.key = some (.keyRecord { bootKey with isActive := false }) ∧
    validateAPIKey storeRevoked true bootKey.key "2025-01-05T00:00:00.000Z"
      = (none, storeRevoked) ∧
    authMiddleware storeRevoked true "/v1/chat/completions" "POST" (some bootKey.key)
        "2025-01-05T00:00:00.000Z"
      = (.reject 401 "authentication_error" "invalid_api_key", storeRevoked) ∧
    revokeAPIKey storeRevoked "a1" = (true, storeRevoked) ∧
    handleRevokeStatus storeRevoked "zzz" = (404, storeRevoked) := by
  decide

/-- C7: a failure of the lastUsed touch write fails the whole request.  With
the same active credential, validation succeeds when the put succeeds, but
when the awaited put throws, the catch inside validateAPIKey returns null
and the auth middleware rejects the request with a 401 invalid_api_key
error, contradicting the best-effort requirement. -/
theorem touch_write_failure_fails_request :
    bootKey.isActive = true ∧
    validateAPIKey storeOne true bootKey.key "2025-01-06T00:00:00.000Z"
      = (some { bootKey with lastUsed := some "2025-01-06T00:00:00.000Z" },
         kvPut storeOne bootKey.key
           (.keyRecord { bootKey with lastUsed := some "2025-01-06T00:00:00.000Z" })) ∧
    validateAPIKey storeOne false bootKey.key "2025-01-06T00:00:00.000Z" = (none, storeOne) ∧
    authMiddleware storeOne false "/v1/chat/completions" "POST" (some bootKey.key)
        "2025-01-06T00:00:00.000Z"
      = (.reject 401 "authentication_error" "invalid_api_key", storeOne) := by
  decide

/-- C8 counterexample: the request with the unknown model identifier is
accepted, but the model of the prepared upstream payload is the original
unknown identifier, not the default; the default appears only as the model
the handler stamps on the client-facing response. -/
theorem unknown_model_upstream_not_default :
    c8run.1.isSuccess = true ∧
    c8run.1.upstreamModel = "totally-unknown-model" ∧
    c8run.1.responseModel = "claude-sonnet-4" ∧
    c8run.1.upstreamModel ≠ "claude-sonnet-4" := by
  decide

/-- C8 amended: a model identifier outside both the alias table and
validModels (and non-empty, so the JS falsy default of the payload builder
does not apply) passes through unchanged to the upstream payload, while
validateModel maps it to the default claude-sonnet-4 used for the response
model field; the request itself is not rejected. -/
theorem unknown_model_passthrough (req : OpenAIRequest)
    (h1 : validModels.contains req.model = false)
    (h2 : openAIModelMap.lookup req.model = none)
    (h3 : ¬ req.model = "") :
    (preparePuterAPIPayload (transformOpenAIToPuter req).1 (transformOpenAIToPuter req).2).model
      = req.model ∧
    validateModel req.model = "claude-sonnet-4" := by
  constructor
  · simp [preparePuterAPIPayload, transformOpenAIToPuter, h2, h3]
  · have hnm : req.model ∉ validModels := by simpa using h1
    simp [validateModel, hnm]

/-- Witness for C8 amended at the concrete unknown identifier. -/
theorem unknown_model_passthrough_witness :
    (preparePuterAPIPayload (transformOpenAIToPuter reqUnknown).1
        (transformOpenAIToPuter reqUnknown).2).model = "totally-unknown-model" ∧
    validateModel "totally-unknown-model" = "claude-sonnet-4" :=
  unknown_model_passthrough reqUnknown (by decide) (by decide) (by decide)

/-- C9 counterexample: at time 0 the day-window reset instant reported by
checkRateLimit is 86399999 (23:59:59.999 UTC of the current day), not the
next UTC midnight 86400000. -/
theorem day_reset_not_midnight :
    (checkRateLimit [] "k1" ⟨1, 2, 3⟩ 0).reset.day = 86399999 ∧
    (checkRateLimit [] "k1" ⟨1, 2, 3⟩ 0).reset.day ≠ 86400000 := by
  decide

/-- C9 amended: for every credential, limit configuration, counter store and
instant, the reported remaining of each window is max 0 (limit - count) of
that window bucket; the minute and hour resets are the start of the next
minute and hour; the day reset is the LAST MILLISECOND of the current UTC
day, one millisecond before the next UTC midnight. -/
theorem rate_check_remaining_and_reset_semantics (rl : CounterStore) (keyId : String)
    (limits : RateLimitCfg) (now : Nat) :
    (checkRateLimit rl keyId limits now).remaining.minute
      = max 0 ((limits.requestsPerMinute : Int) - getRateLimitCount rl (minuteKey keyId now)) ∧
    (checkRateLimit rl keyId limits now).remaining.hour
      = max 0 ((limits.requestsPerHour : Int) - getRateLimitCount rl (hourKey keyId now)) ∧
    (checkRateLimit rl keyId limits now).remaining.day
      = max 0 ((limits.requestsPerDay : Int) - getRateLimitCount rl (dayKey keyId now)) ∧
    (checkRateLimit rl keyId limits now).reset.minute = (now / 60000 + 1) * 60000 ∧
    (checkRateLimit rl keyId limits now).reset.hour = (now / 3600000 + 1) * 3600000 ∧
    (checkRateLimit rl keyId limits now).reset.day + 1 = (now / 86400000 + 1) * 86400000 := by
  obtain ⟨hrem, hres⟩ := checkRateLimit_remaining_reset rl keyId limits now
  refine ⟨?_, ?_, ?_, ?_, ?_, ?_⟩
  · rw [hrem]; rfl
  · rw [hrem]; rfl
  · rw [hrem]; rfl
  · rw [hres]; rfl
  · rw [hres]; rfl
  · rw [hres]
    show endOfDayMs (dayBucket now) + 1 = (now / 86400000 + 1) * 86400000
    unfold endOfDayMs dayBucket
    omega

/-- C10: for every upstream response, model, request id, original prompt and
clock value, the non-streaming Format-A response has usage.total_tokens 0,
because the statement that would set it to the sum sits after the return
statement and never runs; at a concrete input both prompt_tokens and
completion_tokens are positive while total_tokens is still 0. -/
theorem total_tokens_always_zero :
    (∀ (pr : PuterChatResponse) (model : String) (rid : Option String)
        (op : Option Prompt) (now : Nat) (gid : String),
      (transformPuterToOpenAI pr model rid op now gid).usage.total_tokens = 0) ∧
    0 < (transformPuterToOpenAI demoPuterResp "claude-sonnet-4" none
          (some (.str "Hello world example")) 1700000000000 "g1").usage.prompt_tokens ∧
    0 < (transformPuterToOpenAI demoPuterResp "claude-sonnet-4" none
          (some (.str "Hello world example")) 1700000000000 "g1").usage.completion_tokens := by
  refine ⟨fun pr model rid op now gid => rfl, by decide, by decide⟩

end PuterProxy
